import Mathlib

/-!
Shallow embedding of the trigger-action subsystem of the iobeam CLI
(`command/triggers.go`): the action-variant data records and their
validation rules, the action registry, and the post-fetch logic of the
create / add-action / remove-action commands, together with the request
values they emit.

Go `uint64` values are embedded as `Nat` below `2 ^ 64`, with explicit
modular arithmetic where wraparound matters; Go slices are embedded as
lists, with the bounds checks of slice expressions made explicit; the
`panic` calls of the source become `Except`/dedicated error constructors.
-/

/-- Modulus of Go uint64 arithmetic. -/
def U64 : Nat := 2 ^ 64

/-- Field data of the email action variant (`emailActionData`). -/
structure emailActionData where
  To : List String
  Subject : String
  Payload : String
deriving Repr, DecidableEq

/-- Validation rule of `emailActionData`: `len(d.To) > 0 && len(d.Payload) > 0`. -/
def emailActionData.Valid (d : emailActionData) : Bool :=
  decide (0 < d.To.length) && decide (0 < d.Payload.length)

/-- Field data of the HTTP action variant (`httpActionData`). -/
structure httpActionData where
  URL : String
  Payload : String
  AuthHeader : String
  ContentType : String
deriving Repr, DecidableEq

/-- Validation rule of `httpActionData`: `len(d.URL) > 0 && len(d.ContentType) > 0`. -/
def httpActionData.Valid (d : httpActionData) : Bool :=
  decide (0 < d.URL.length) && decide (0 < d.ContentType.length)

/-- Field data of the MQTT action variant (`mqttActionData`). -/
structure mqttActionData where
  Broker : String
  Username : String
  Password : String
  QoS : Int
  Topic : String
  Payload : String
deriving Repr, DecidableEq

/-- Validation rule of `mqttActionData`:
`len(d.Broker) > 0 && len(d.Topic) > 0 && len(d.Payload) > 0`. -/
def mqttActionData.Valid (d : mqttActionData) : Bool :=
  decide (0 < d.Broker.length) && decide (0 < d.Topic.length) &&
    decide (0 < d.Payload.length)

/-- Field data of the Twilio SMS action variant (`smsActionData`). -/
structure smsActionData where
  AccountSID : String
  AuthToken : String
  From : String
  To : String
  Payload : String
deriving Repr, DecidableEq

/-- Validation rule of `smsActionData`: all five fields non-empty. -/
def smsActionData.Valid (d : smsActionData) : Bool :=
  decide (0 < d.AccountSID.length) && decide (0 < d.AuthToken.length) &&
    decide (0 < d.From.length) && decide (0 < d.To.length) &&
      decide (0 < d.Payload.length)

/-- A dynamic value behind the `actionArgs` interface. The four known
variants are the pointer types handled by the type switch in
`getActionType`; `raw` stands for any other dynamic value (for example the
decoded JSON args of a fetched trigger), which the type switch does not
recognize. -/
inductive argsVal where
  | email (d : emailActionData)
  | http (d : httpActionData)
  | mqtt (d : mqttActionData)
  | sms (d : smsActionData)
  | raw (v : String)
deriving Repr, DecidableEq

/-- Registry direction name-to-variant (`getActionArgs`): constructs a fresh
variant for a kind name; the default branch of the Go switch panics with
an unknown-action-type message, embedded as `Except.error`. The email
variant is built with `To := make([]string, 1)`, a one-element list holding
the empty string. -/
def getActionArgs (action : String) : Except String argsVal :=
  if action = "email" then .ok (.email ⟨[""], "", ""⟩)
  else if action = "http" then .ok (.http ⟨"", "", "", ""⟩)
  else if action = "mqtt" then .ok (.mqtt ⟨"", "", "", 0, "", ""⟩)
  else if action = "sms" then .ok (.sms ⟨"", "", "", "", ""⟩)
  else .error "Unknown action type"

/-- Registry direction variant-to-name (`getActionType`): the runtime type
switch mapping a variant back to its kind tag; the default branch panics,
embedded as `Except.error`. -/
def getActionType : argsVal → Except String String
  | .email _ => .ok "email"
  | .http _ => .ok "http"
  | .mqtt _ => .ok "mqtt"
  | .sms _ => .ok "sms"
  | .raw _ => .error "Unknown action type"

/-- Trigger metadata (`triggerData`). `ReleaseWhenPtr` is a nullable pointer
(`Option`); `releaseWhen`, `dumpRequest`, `dumpResponse` are the unexported
client-side fields. -/
structure triggerData where
  TriggerId : Nat
  ProjectId : Nat
  Namespace : String
  TriggerName : String
  DataExpiry : Nat
  FireWhen : String
  ReleaseWhenPtr : Option String
  releaseWhen : String
  dumpRequest : Bool
  dumpResponse : Bool
deriving Repr, DecidableEq

/-- Validation rule of `triggerData`:
`d.ProjectId > 0 && len(d.TriggerName) > 0 && d.DataExpiry >= 0 && len(d.FireWhen) > 0`. -/
def triggerData.IsValid (d : triggerData) : Bool :=
  decide (0 < d.ProjectId) && decide (0 < d.TriggerName.length) &&
    decide (0 ≤ d.DataExpiry) && decide (0 < d.FireWhen.length)

/-- One action entry of a trigger (`triggerAction`). The Go field `Type`
holds the wire tag; it is a keyword in Lean, hence the underscore. -/
structure triggerAction where
  Type_ : String
  MinDelay : Nat
  Args : argsVal
deriving Repr, DecidableEq

/-- The full trigger aggregate (`fullTrigger`): embedded `triggerData` plus
the ordered action list. -/
structure fullTrigger where
  data : triggerData
  Actions : List triggerAction
deriving Repr, DecidableEq

/-- Constructor `newTrigger`: assembles a trigger body; the fields not
passed keep their Go zero values. -/
def newTrigger (name : String) (projectId dataExpiry : Nat) (fireWhen : String)
    (releaseWhen : Option String) (ns : String) (actions : List triggerAction) :
    fullTrigger :=
  ⟨⟨0, projectId, ns, name, dataExpiry, fireWhen, releaseWhen, "", false, false⟩,
    actions⟩

/-- Base API path for triggers, registered in `init`. -/
def baseApiPathTrigger : String := "/v1/triggers"

/-- Modelled from the spec: `getUrlForResource` is defined outside the
provided sources; per the spec the id-based resource path is the base path
followed by a slash and the decimal id. -/
def getUrlForResource (base : String) (id : Nat) : String :=
  base ++ "/" ++ toString id

/-- Id-based trigger resource path (`getUrlForTriggerId`). -/
def getUrlForTriggerId (id : Nat) : String :=
  getUrlForResource baseApiPathTrigger id

/-- Shared lookup arguments (`triggerBaseArgs`). -/
structure triggerBaseArgs where
  projectId : Nat
  triggerId : Nat
  triggerName : String
deriving Repr, DecidableEq

/-- Validity gate of `triggerBaseArgs`. -/
def triggerBaseArgs.IsValid (a : triggerBaseArgs) : Bool :=
  decide (0 < a.projectId) && (decide (0 < a.triggerId) || decide (0 < a.triggerName.length))

/-- Path selection (`triggerBaseArgs.getApiPath`): the id-based resource
path when `triggerId > 0`, else the base path. -/
def triggerBaseArgs.getApiPath (a : triggerBaseArgs) : String :=
  if 0 < a.triggerId then getUrlForTriggerId a.triggerId else baseApiPathTrigger

/-- A read (or delete) request as assembled by the command: its path and
its query parameters. -/
structure lookupRequest where
  path : String
  params : List (String × String)
deriving Repr, DecidableEq

/-- The GET request assembled by `_getTrigger`: the `name` parameter is
attached only when `triggerId <= 0`. -/
def _getTriggerRequest (args : triggerBaseArgs) : lookupRequest :=
  ⟨args.getApiPath, if args.triggerId ≤ 0 then [("name", args.triggerName)] else []⟩

/-- The DELETE request assembled by `deleteTrigger`: same path and parameter
rule as `_getTrigger`. -/
def deleteTriggerRequest (args : triggerBaseArgs) : lookupRequest :=
  ⟨args.getApiPath, if args.triggerId ≤ 0 then [("name", args.triggerName)] else []⟩

/-- The PUT write-back request assembled by `_putTrigger`: full-resource
replace at the id-based path, carrying the project id and the whole
trigger as body. -/
structure putRequest where
  path : String
  projectId : Nat
  body : fullTrigger
deriving Repr, DecidableEq

/-- Embedding of `_putTrigger` up to the network call: the request it issues. -/
def _putTrigger (trigger : fullTrigger) : putRequest :=
  ⟨getUrlForTriggerId trigger.data.TriggerId, trigger.data.ProjectId, trigger⟩

/-- Go slice expression `l[:high]` (high bounded by the slice length here,
which is how `delAction` uses it): `none` embeds the bounds panic. -/
def goSliceTo (l : List α) (high : Nat) : Option (List α) :=
  if high ≤ l.length then some (l.take high) else none

/-- Go slice expression `l[low:]`: legal exactly when `low` does not exceed
the default high bound `len(l)`; `none` embeds the bounds panic. -/
def goSliceFrom (l : List α) (low : Nat) : Option (List α) :=
  if low ≤ l.length then some (l.drop low) else none

/-- Outcome of `delAction` after a successful fetch: the invalid-index
error return (no write-back), a runtime panic in the slice expressions, or
the PUT write-back request issued with the spliced action list. -/
inductive delResult where
  | invalidIndex (msg : String)
  | slicePanic
  | writeBack (req : putRequest)
deriving Repr, DecidableEq

/-- Whether a `delResult` is the invalid-index error return. -/
def delResult.isInvalidIndex : delResult → Bool
  | .invalidIndex _ => true
  | _ => false

/-- Post-fetch logic of `delAction`: `idx := args.index - 1` in uint64
arithmetic, the boundary check `idx > lenActions`, then the splice
`append(Actions[:idx], Actions[idx+1:]...)` and the write-back. -/
def delAction (trigger : fullTrigger) (index : Nat) : delResult :=
  if (index + (U64 - 1)) % U64 > trigger.Actions.length then
    .invalidIndex ("Invalid action index: " ++ toString index ++ " (only " ++
      toString trigger.Actions.length ++ " actions)")
  else
    match goSliceTo trigger.Actions ((index + (U64 - 1)) % U64),
        goSliceFrom trigger.Actions ((index + (U64 - 1)) % U64 + 1) with
    | some pre, some post => .writeBack (_putTrigger ⟨trigger.data, pre ++ post⟩)
    | _, _ => .slicePanic

/-- Outcome of `addAction` after a successful fetch: either the panic of
`getActionType` on an unrecognized variant, or the PUT write-back request. -/
inductive addResult where
  | panicked (msg : String)
  | writeBack (req : putRequest)
deriving Repr, DecidableEq

/-- Post-fetch logic of `addAction`: build the new entry from the bound
variant and minDelay, append it to the fetched action list, write back. -/
def addAction (trigger : fullTrigger) (data : argsVal) (minDelay : Nat) : addResult :=
  match getActionType data with
  | .error e => .panicked e
  | .ok t => .writeBack (_putTrigger ⟨trigger.data, trigger.Actions ++ [⟨t, minDelay, data⟩]⟩)

/-- Arguments of the create command (`createArgs`): embedded `triggerData`,
the minimum delay, and the bound action variant. -/
structure createArgs where
  tData : triggerData
  minDelay : Nat
  data : argsVal
deriving Repr, DecidableEq

/-- Body assembly of `createTrigger`: one action entry tagged by
`getActionType`, and a release pointer that is non-nil exactly when the
client-side `releaseWhen` string is non-empty. -/
def createTriggerBody (args : createArgs) : Except String fullTrigger :=
  match getActionType args.data with
  | .error e => .error e
  | .ok t =>
    let actions : List triggerAction := [⟨t, args.minDelay, args.data⟩]
    let releasePtr : Option String :=
      if 0 < args.tData.releaseWhen.length then some args.tData.releaseWhen else none
    .ok (newTrigger args.tData.TriggerName args.tData.ProjectId args.tData.DataExpiry
      args.tData.FireWhen releasePtr args.tData.Namespace actions)

/-- Top-level JSON keys emitted for a `triggerData` value, following the
struct tags in the source and the documented contract of the Go JSON
encoder: a field tagged `omitempty` is omitted at its zero value, so
`trigger_id` and `data_expiry` are omitted at 0 and `release_when` is
omitted when the pointer is nil; unexported fields are never emitted. -/
def triggerData.wireKeys (d : triggerData) : List String :=
  (if d.TriggerId ≠ 0 then ["trigger_id"] else []) ++
    ["project_id", "namespace", "trigger_name"] ++
      (if d.DataExpiry ≠ 0 then ["data_expiry"] else []) ++
        ["fire_when"] ++
          (match d.ReleaseWhenPtr with
            | some _ => ["release_when"]
            | none => [])

/-- A string has positive length exactly when it is not the empty string. -/
theorem string_length_pos_iff (s : String) : 0 < s.length ↔ s ≠ "" := by
  cases s with
  | mk data =>
    cases data with
    | nil => simp [String.length]
    | cons c cs => simp [String.length, String.ext_iff]

/-- C5: a `triggerData` value is valid exactly when ProjectId is positive,
TriggerName and FireWhen are non-empty and DataExpiry is non-negative; the
right-hand side mentions no other field, so Namespace, ReleaseWhen,
TriggerId and the debug flags play no role in validity. -/
theorem C5_triggerData_IsValid_iff (d : triggerData) :
    d.IsValid = true ↔
      (0 < d.ProjectId ∧ d.TriggerName ≠ "" ∧ d.FireWhen ≠ "" ∧ 0 ≤ d.DataExpiry) := by
  simp [triggerData.IsValid, string_length_pos_iff]
  tauto

/-- C6: kind-specific validity of the HTTP, MQTT and SMS variants is exactly
non-emptiness of their required fields; no other field of these variants
appears in the characterization. -/
theorem C6_kind_specific_Valid_iff :
    (∀ d : httpActionData, d.Valid = true ↔ (d.URL ≠ "" ∧ d.ContentType ≠ "")) ∧
    (∀ d : mqttActionData, d.Valid = true ↔ (d.Broker ≠ "" ∧ d.Topic ≠ "" ∧ d.Payload ≠ "")) ∧
    (∀ d : smsActionData, d.Valid = true ↔
      (d.AccountSID ≠ "" ∧ d.AuthToken ≠ "" ∧ d.From ≠ "" ∧ d.To ≠ "" ∧ d.Payload ≠ "")) := by
  refine ⟨fun d => ?_, fun d => ?_, fun d => ?_⟩ <;>
    simp [httpActionData.Valid, mqttActionData.Valid, smsActionData.Valid,
      string_length_pos_iff, and_assoc]

/-- C2 counterexample: the email variant with recipient list containing one
empty string and a non-empty payload is accepted by `Valid`, yet its first
recipient is empty, refuting the claimed equivalence with
`To[0] non-empty and Payload non-empty` at this input. -/
theorem C2_email_counterexample :
    ¬ ((emailActionData.Valid ⟨[""], "", "x"⟩ = true) ↔
        ((([""] : List String).getD 0 "" ≠ "") ∧ ("x" : String) ≠ "")) := by
  decide

/-- C2 amended: email validity is exactly non-emptiness of the recipient
list To (its length, not the content of its first element) together with a
non-empty Payload. -/
theorem C2_email_Valid_iff (d : emailActionData) :
    d.Valid = true ↔ (d.To ≠ [] ∧ d.Payload ≠ "") := by
  simp [emailActionData.Valid, string_length_pos_iff, List.length_pos]

/-- C7: for each of the four registered kind names, constructing the variant
and mapping it back to its tag is the identity; any other name makes the
constructor direction fail with the unknown-action-type panic, and any
dynamic value outside the four variants makes the tag direction fail with
the same panic. -/
theorem C7_registry_roundtrip (k : String) :
    ((k = "email" ∨ k = "http" ∨ k = "mqtt" ∨ k = "sms") →
      (getActionArgs k).bind getActionType = .ok k) ∧
    (¬(k = "email" ∨ k = "http" ∨ k = "mqtt" ∨ k = "sms") →
      getActionArgs k = .error "Unknown action type") ∧
    (∀ v, getActionType (.raw v) = .error "Unknown action type") := by
  refine ⟨?_, ?_, fun v => rfl⟩
  · rintro (rfl | rfl | rfl | rfl) <;> rfl
  · intro h
    push_neg at h
    obtain ⟨h1, h2, h3, h4⟩ := h
    simp [getActionArgs, h1, h2, h3, h4]

/-- C7 witness: the round trip at the kind name email, and the failures at
the unregistered name zzz and at a value outside the four variants. -/
theorem C7_registry_roundtrip_witness :
    (getActionArgs "email").bind getActionType = .ok "email" ∧
      getActionArgs "zzz" = .error "Unknown action type" ∧
      getActionType (.raw "w") = .error "Unknown action type" :=
  ⟨(C7_registry_roundtrip "email").1 (Or.inl rfl),
    (C7_registry_roundtrip "zzz").2.1 (by decide),
    (C7_registry_roundtrip "zzz").2.2 "w"⟩

/-- The id-based trigger path spelled out. -/
theorem getUrlForTriggerId_eq (id : Nat) :
    getUrlForTriggerId id = "/v1/triggers/" ++ toString id := rfl

/-- C8: when `triggerId > 0`, both the get and the delete requests use the
id-based resource path and carry no name parameter even when a name is
set; when `triggerId = 0`, both use the base path with the name query
parameter set to `triggerName`. -/
theorem C8_lookup_key_precedence (args : triggerBaseArgs) :
    (0 < args.triggerId →
      (_getTriggerRequest args).path = "/v1/triggers/" ++ toString args.triggerId ∧
      (_getTriggerRequest args).params = [] ∧
      (deleteTriggerRequest args).path = "/v1/triggers/" ++ toString args.triggerId ∧
      (deleteTriggerRequest args).params = []) ∧
    (args.triggerId = 0 →
      (_getTriggerRequest args).path = "/v1/triggers" ∧
      (_getTriggerRequest args).params = [("name", args.triggerName)] ∧
      (deleteTriggerRequest args).path = "/v1/triggers" ∧
      (deleteTriggerRequest args).params = [("name", args.triggerName)]) := by
  constructor
  · intro h
    have h' : ¬ args.triggerId ≤ 0 := by omega
    simp [_getTriggerRequest, deleteTriggerRequest, triggerBaseArgs.getApiPath,
      getUrlForTriggerId_eq, h, h']
  · intro h
    simp [_getTriggerRequest, deleteTriggerRequest, triggerBaseArgs.getApiPath, h,
      baseApiPathTrigger]

/-- C8 witness: concrete lookup arguments with both keys set (id 5, name t)
and with only the name set. -/
theorem C8_lookup_key_precedence_witness :
    ((_getTriggerRequest ⟨1, 5, "t"⟩).path = "/v1/triggers/" ++ toString (5 : Nat) ∧
      (_getTriggerRequest ⟨1, 5, "t"⟩).params = [] ∧
      (deleteTriggerRequest ⟨1, 5, "t"⟩).path = "/v1/triggers/" ++ toString (5 : Nat) ∧
      (deleteTriggerRequest ⟨1, 5, "t"⟩).params = []) ∧
    ((_getTriggerRequest ⟨1, 0, "t"⟩).path = "/v1/triggers" ∧
      (_getTriggerRequest ⟨1, 0, "t"⟩).params = [("name", "t")] ∧
      (deleteTriggerRequest ⟨1, 0, "t"⟩).path = "/v1/triggers" ∧
      (deleteTriggerRequest ⟨1, 0, "t"⟩).params = [("name", "t")]) :=
  ⟨(C8_lookup_key_precedence ⟨1, 5, "t"⟩).1 (by decide),
    (C8_lookup_key_precedence ⟨1, 0, "t"⟩).2 rfl⟩

/-- The release-when key is on the wire exactly when the pointer is non-nil. -/
theorem wireKeys_release_when (d : triggerData) :
    "release_when" ∈ d.wireKeys ↔ d.ReleaseWhenPtr ≠ none := by
  cases ho : d.ReleaseWhenPtr <;>
    simp [triggerData.wireKeys, ho]

/-- C9: a trigger body assembled by create carries a non-nil release
pointer exactly when the client-side releaseWhen string is non-empty, and
the release_when key appears in the wire representation exactly when the
pointer is non-nil. -/
theorem C9_release_when_omission (args : createArgs) (t : fullTrigger)
    (h : createTriggerBody args = .ok t) :
    ((t.data.ReleaseWhenPtr ≠ none) ↔ args.tData.releaseWhen ≠ "") ∧
    (("release_when" ∈ t.data.wireKeys) ↔ t.data.ReleaseWhenPtr ≠ none) := by
  refine ⟨?_, wireKeys_release_when t.data⟩
  cases hk : getActionType args.data with
  | error e => simp [createTriggerBody, hk] at h
  | ok tag =>
    simp only [createTriggerBody, hk] at h
    injection h with h'
    subst h'
    by_cases hr : 0 < args.tData.releaseWhen.length
    · have hr' : args.tData.releaseWhen ≠ "" := (string_length_pos_iff _).mp hr
      simp [newTrigger, hr, hr']
    · have hr0 : args.tData.releaseWhen = "" := by
        by_contra hne
        exact hr ((string_length_pos_iff _).mpr hne)
      simp [newTrigger, hr, hr0]

/-- Concrete create arguments used as a witness: releaseWhen set to rw. -/
def cArgs0 : createArgs :=
  ⟨⟨0, 1, "input", "t", 0, "f", none, "rw", false, false⟩, 0, .email ⟨[""], "", ""⟩⟩

/-- The trigger body that create assembles from `cArgs0`. -/
def cBody0 : fullTrigger :=
  newTrigger "t" 1 0 "f" (some "rw") "input" [⟨"email", 0, .email ⟨[""], "", ""⟩⟩]

/-- C9 witness: the assembled body for `cArgs0` carries the release pointer
and its wire keys include release_when. -/
theorem C9_release_when_omission_witness :
    ((cBody0.data.ReleaseWhenPtr ≠ none) ↔ cArgs0.tData.releaseWhen ≠ "") ∧
    (("release_when" ∈ cBody0.data.wireKeys) ↔ cBody0.data.ReleaseWhenPtr ≠ none) :=
  C9_release_when_omission cArgs0 cBody0 rfl

/-- Numeric value of the uint64 modulus. -/
theorem U64_eq : U64 = 18446744073709551616 := by norm_num [U64]

/-- The uint64 decrement `index - 1` computes the ordinary predecessor for
a positive in-range index. -/
theorem u64_pred_of_pos (i : Nat) (h1 : 1 ≤ i) (h2 : i < U64) :
    (i + (U64 - 1)) % U64 = i - 1 := by
  have hU := U64_eq
  have he : i + (U64 - 1) = U64 + (i - 1) := by omega
  rw [he, Nat.add_mod_left, Nat.mod_eq_of_lt (by omega)]

/-- C3: for a fetched trigger with N actions and a 1-based index between 1
and N, remove-action issues the full-resource PUT whose body carries the
action list with the entry at position i - 1 removed: length N - 1,
entries below i - 1 unchanged at their positions, entries above shifted
down by exactly one, order preserved. -/
theorem C3_remove_action_inrange (trigger : fullTrigger) (i : Nat)
    (h1 : 1 ≤ i) (h2 : i ≤ trigger.Actions.length)
    (hN : trigger.Actions.length < 2 ^ 63) :
    delAction trigger i =
      .writeBack (_putTrigger ⟨trigger.data,
        trigger.Actions.take (i - 1) ++ trigger.Actions.drop i⟩) ∧
    (trigger.Actions.take (i - 1) ++ trigger.Actions.drop i).length =
      trigger.Actions.length - 1 ∧
    (∀ j, j < i - 1 →
      (trigger.Actions.take (i - 1) ++ trigger.Actions.drop i)[j]? =
        trigger.Actions[j]?) ∧
    (∀ j, i - 1 ≤ j → j < trigger.Actions.length - 1 →
      (trigger.Actions.take (i - 1) ++ trigger.Actions.drop i)[j]? =
        trigger.Actions[j + 1]?) := by
  have hU := U64_eq
  have h63 : (2 : Nat) ^ 63 = 9223372036854775808 := by norm_num
  have hidx : (i + (U64 - 1)) % U64 = i - 1 := u64_pred_of_pos i h1 (by omega)
  refine ⟨?_, ?_, ?_, ?_⟩
  · have e1 : goSliceTo trigger.Actions (i - 1) =
        some (trigger.Actions.take (i - 1)) := by
      unfold goSliceTo
      rw [if_pos (by omega)]
    have e2 : goSliceFrom trigger.Actions (i - 1 + 1) =
        some (trigger.Actions.drop i) := by
      rw [show i - 1 + 1 = i by omega]
      unfold goSliceFrom
      rw [if_pos (by omega)]
    unfold delAction
    rw [hidx, if_neg (by omega), e1, e2]
  · simp only [List.length_append, List.length_take, List.length_drop]
    omega
  · intro j hj
    rw [List.getElem?_append]
    rw [if_pos (by simp only [List.length_take]; omega)]
    rw [List.getElem?_take, if_pos hj]
  · intro j hj1 hj2
    rw [List.getElem?_append, if_neg (by simp only [List.length_take]; omega)]
    have hm : j - (trigger.Actions.take (i - 1)).length = j - (i - 1) := by
      simp only [List.length_take]
      omega
    rw [hm, List.getElem?_drop, show i + (j - (i - 1)) = j + 1 by omega]

/-- Trigger metadata used for concrete witnesses. -/
def tData0 : triggerData := ⟨7, 1, "input", "t", 0, "f", none, "", false, false⟩

/-- Three distinct concrete action entries. -/
def act0 : triggerAction := ⟨"email", 0, .email ⟨["a"], "", "m"⟩⟩

/-- Second concrete action entry. -/
def act1 : triggerAction := ⟨"http", 1, .http ⟨"u", "", "", "text/plain"⟩⟩

/-- Third concrete action entry. -/
def act2 : triggerAction := ⟨"sms", 2, .sms ⟨"s", "t", "f", "t", "m"⟩⟩

/-- A concrete fetched trigger with three actions. -/
def trig3 : fullTrigger := ⟨tData0, [act0, act1, act2]⟩

/-- C3 witness: removing index 2 from the three-action trigger keeps action
one in place, shifts action three down by one, and writes back two actions. -/
theorem C3_remove_action_inrange_witness :
    delAction trig3 2 =
      .writeBack (_putTrigger ⟨trig3.data,
        trig3.Actions.take 1 ++ trig3.Actions.drop 2⟩) ∧
    (trig3.Actions.take 1 ++ trig3.Actions.drop 2).length =
      trig3.Actions.length - 1 ∧
    (trig3.Actions.take 1 ++ trig3.Actions.drop 2)[0]? = trig3.Actions[0]? ∧
    (trig3.Actions.take 1 ++ trig3.Actions.drop 2)[1]? = trig3.Actions[2]? :=
  have h := C3_remove_action_inrange trig3 2 (by decide) (by decide)
    (by norm_num [trig3])
  ⟨h.1, h.2.1, h.2.2.1 0 (by decide), h.2.2.2 1 (by decide) (by decide)⟩

/-- A concrete fetched trigger with one action. -/
def trig1 : fullTrigger := ⟨tData0, [act0]⟩

/-- C1: with N fetched actions and a 1-based index i, an index i > N + 1
makes the boundary check fail, returning the invalid-index error and never
reaching the write-back; an index i = N + 1 passes the boundary check
(the zero-based i - 1 is compared with strict greater-than against N) and
the subsequent slice expression is what fails, with a runtime panic. -/
theorem C1_remove_action_boundary (trigger : fullTrigger) (i : Nat)
    (h1 : 1 ≤ i) (h2 : i < 2 ^ 64) (hN : trigger.Actions.length < 2 ^ 63) :
    (trigger.Actions.length + 1 < i →
      (delAction trigger i).isInvalidIndex = true ∧
      ∀ req, delAction trigger i ≠ .writeBack req) ∧
    (i = trigger.Actions.length + 1 → delAction trigger i = .slicePanic) := by
  have hU := U64_eq
  have h63 : (2 : Nat) ^ 63 = 9223372036854775808 := by norm_num
  have h64 : (2 : Nat) ^ 64 = 18446744073709551616 := by norm_num
  have hidx : (i + (U64 - 1)) % U64 = i - 1 := u64_pred_of_pos i h1 (by omega)
  constructor
  · intro hgt
    unfold delAction
    rw [hidx, if_pos (by omega)]
    exact ⟨rfl, fun req h => delResult.noConfusion h⟩
  · intro heq
    have e1 : goSliceTo trigger.Actions (i - 1) =
        some (trigger.Actions.take (i - 1)) := by
      unfold goSliceTo
      rw [if_pos (by omega)]
    have e2 : goSliceFrom trigger.Actions (i - 1 + 1) = none := by
      unfold goSliceFrom
      rw [if_neg (by omega)]
    unfold delAction
    rw [hidx, if_neg (by omega), e1, e2]

/-- C1 witness: on the one-action trigger, index 4 (greater than N + 1 = 2)
is rejected with the invalid-index error and no write-back, while index 2
(equal to N + 1) passes the check and dies in the slice. -/
theorem C1_remove_action_boundary_witness :
    (delAction trig1 4).isInvalidIndex = true ∧
    delAction trig1 4 ≠ .writeBack (_putTrigger trig1) ∧
    delAction trig1 2 = .slicePanic :=
  have h4 := (C1_remove_action_boundary trig1 4 (by norm_num) (by norm_num)
    (by norm_num [trig1])).1 (by norm_num [trig1])
  ⟨h4.1, h4.2 (_putTrigger trig1),
    (C1_remove_action_boundary trig1 2 (by norm_num) (by norm_num)
      (by norm_num [trig1])).2 (by norm_num [trig1])⟩

/-- C10: reaching delAction with index 0 makes the unsigned decrement wrap
to 2 ^ 64 - 1, which exceeds every representable action count, so the
invalid-index error is returned and no write-back request is produced. -/
theorem C10_zero_index_rejected (trigger : fullTrigger)
    (hN : trigger.Actions.length < 2 ^ 63) :
    (delAction trigger 0).isInvalidIndex = true ∧
    ∀ req, delAction trigger 0 ≠ .writeBack req := by
  have hU := U64_eq
  have h63 : (2 : Nat) ^ 63 = 9223372036854775808 := by norm_num
  have hidx : (0 + (U64 - 1)) % U64 = U64 - 1 := by
    rw [Nat.zero_add, Nat.mod_eq_of_lt (by omega)]
  unfold delAction
  rw [hidx, if_pos (by omega)]
  exact ⟨rfl, fun req h => delResult.noConfusion h⟩

/-- C10 witness: index 0 on the one-action trigger yields the invalid-index
error and in particular not the write-back of that trigger. -/
theorem C10_zero_index_rejected_witness :
    (delAction trig1 0).isInvalidIndex = true ∧
    delAction trig1 0 ≠ .writeBack (_putTrigger trig1) :=
  have h := C10_zero_index_rejected trig1 (by norm_num [trig1])
  ⟨h.1, h.2 (_putTrigger trig1)⟩

/-- A variant constructed by the registry maps back to the very kind name
it was constructed from. -/
theorem getActionType_getActionArgs (k : String) (d : argsVal)
    (h : getActionArgs k = .ok d) : getActionType d = .ok k := by
  unfold getActionArgs at h
  split_ifs at h with h1 h2 h3 h4 <;>
    first
    | exact Except.noConfusion h
    | (injection h with h'
       subst h'
       simp_all [getActionType])

/-- C4: for any flag-bound variant data d of one of the four kinds (kind
tag k), add-action on a fetched trigger with N actions issues the
full-resource PUT whose body carries N + 1 actions; the first N are the
prior entries unchanged in order and the last is the new entry, tagged
with the chosen kind and carrying the supplied minDelay and the data d. -/
theorem C4_add_action_append (trigger : fullTrigger) (d : argsVal) (k : String)
    (minDelay : Nat) (h : getActionType d = .ok k) :
    addAction trigger d minDelay =
      .writeBack (_putTrigger ⟨trigger.data,
        trigger.Actions ++ [(⟨k, minDelay, d⟩ : triggerAction)]⟩) ∧
    (trigger.Actions ++ [(⟨k, minDelay, d⟩ : triggerAction)]).length = trigger.Actions.length + 1 ∧
    (trigger.Actions ++ [(⟨k, minDelay, d⟩ : triggerAction)]).take trigger.Actions.length =
      trigger.Actions ∧
    (trigger.Actions ++ [(⟨k, minDelay, d⟩ : triggerAction)])[trigger.Actions.length]? =
      some (⟨k, minDelay, d⟩ : triggerAction) := by
  refine ⟨?_, by simp, by simp, by simp⟩
  unfold addAction
  rw [h]

/-- The flag-bound http variant used in the C4 witness: URL, payload, auth
header and content type all set, so it also passes Valid. -/
def httpBound : argsVal := .http ⟨"http://x", "p", "auth", "text/plain"⟩

/-- C4 witness: adding a flag-bound http action (all fields set, validating)
with minDelay 5 to the one-action trigger appends it after the existing
action. -/
theorem C4_add_action_append_witness :
    addAction trig1 httpBound 5 =
      .writeBack (_putTrigger ⟨trig1.data,
        trig1.Actions ++ [(⟨"http", 5, httpBound⟩ : triggerAction)]⟩) ∧
    (trig1.Actions ++ [(⟨"http", 5, httpBound⟩ : triggerAction)]).length =
      trig1.Actions.length + 1 ∧
    (trig1.Actions ++ [(⟨"http", 5, httpBound⟩ : triggerAction)]).take
      trig1.Actions.length = trig1.Actions ∧
    (trig1.Actions ++ [(⟨"http", 5, httpBound⟩ : triggerAction)])[trig1.Actions.length]? =
      some (⟨"http", 5, httpBound⟩ : triggerAction) :=
  C4_add_action_append trig1 httpBound "http" 5 rfl
